import Mathlib

/-
Verification of the reconciliation engine of the `onevm` module
(src/onevm.py): inventory lookup, lifecycle state handlers, the
provisioning-template renderer and the image-creation sub-protocol.

The embedding mirrors the Python source.  Result dictionaries are modelled
as a record of optional fields (a key absent from the returned dict is
`none`).  Remote calls performed through `xmlrpc` are recorded in an
explicit trace (`List Call`); the responses the remote side would return
are supplied by an `Env` record (image ids handed out by `image.allocate`,
the vm id returned by `template.instantiate`, the data extracted from the
`template.info` and `vm.info` payloads).
-/

namespace Onevm

/-- Wire code to symbolic lifecycle state table (`ONE_STATES_MAP` in the
source, lines 112-124). -/
def ONE_STATES_MAP : List (String × String) :=
  [("0", "init"), ("1", "pending"), ("2", "hold"), ("3", "active"),
   ("4", "stopped"), ("5", "suspended"), ("6", "done"), ("8", "poweroff"),
   ("9", "undeployed"), ("10", "cloning"), ("11", "cloning_failure")]

/-- Dictionary access `ONE_STATES_MAP[code]`; `none` models the `KeyError`
raised on an unknown code. -/
def lookupState (code : String) : Option String :=
  (ONE_STATES_MAP.find? (fun kv => kv.1 == code)).map (fun kv => kv.2)

/-- `NOT_EXISTS_ERR` (line 127). -/
def NOT_EXISTS_ERR : String := "virtual machine does not exists!"

/-- One `<VM>` entry of the inventory listing payload: its NAME, ID and
STATE texts (the id already parsed to an integer). -/
structure VmRec where
  name : String
  id : Int
  stateCode : String
deriving Repr, DecidableEq

/-- The dict returned by `get_vm_info`: `state = none` together with
`id = -1` denotes an absent machine. -/
structure VmInfo where
  name : String
  id : Int
  state : Option String
deriving Repr, DecidableEq

/-- Failures of `get_vm_info`: the raised `OneError`, or the `KeyError`
from an unknown wire state code. -/
inductive LookupErr where
  | oneError (msg : String)
  | keyError (code : String)
deriving Repr, DecidableEq

/-- `get_vm_info` (lines 139-149): filter the inventory by exact name,
raise only when MORE THAN TWO entries match (`len(vms) > 2`), otherwise
return the first match (or the absent marker). -/
def get_vm_info (pool : List VmRec) (name : String) : Except LookupErr VmInfo :=
  let vms := pool.filter (fun v => v.name == name)
  if vms.length > 2 then
    Except.error (LookupErr.oneError "Multiples VMs have the same name!")
  else
    match vms with
    | [] => Except.ok { name := name, id := -1, state := none }
    | v :: _ =>
      match lookupState v.stateCode with
      | some s => Except.ok { name := name, id := v.id, state := some s }
      | none => Except.error (LookupErr.keyError v.stateCode)

/-- `template_infos['disk']` as extracted by `get_template_infos`. -/
structure DiskInfo where
  image : String
  image_uname : String
deriving Repr, DecidableEq

/-- The dict returned by `get_template_infos`: the base template's disk
and, when the template carries one, its SSH_PUBLIC_KEY split on newlines. -/
structure TemplateInfos where
  disk : DiskInfo
  ssh_keys : Option (List String)
deriving Repr, DecidableEq

/-- Responses of the remote side, and the data the engine extracts from
payloads: `allocId n` is the id text returned by the n-th
`image.allocate` call of a creation, `instantiateId` the id returned by
`template.instantiate`, and the `detail*` fields the values read from the
`vm.info` payload by `retrieve_vm`. -/
structure Env where
  templateInfos : TemplateInfos
  allocId : Nat → String
  instantiateId : Int
  detailUid : String
  detailGid : String
  detailUname : String
  detailGname : String
  detailStateCode : String
  detailCpu : String
  detailVcpu : String
  detailMemory : String
  detailIps : List String

/-- A remote call issued through `xmlrpc` (method plus the arguments that
vary; the session argument is common to all calls and omitted). -/
inductive Call where
  | templateInfo (templateId : Option Int)
  | imageAllocate (template : String) (datastore : Nat)
  | templateInstantiate (templateId : Option Int) (name : String)
      (onHold : Bool) (extra : String) (persistent : Bool)
  | vmAction (action : String) (vmId : Int)
  | vmInfo (vmId : Int)
deriving Repr, DecidableEq

/-- The `conf` dict assembled by `retrieve_vm`. -/
structure Conf where
  uid : String
  gid : String
  uname : String
  gname : String
  state : String
  cpu : String
  vcpu : String
  memory : String
  ips : List String
deriving Repr, DecidableEq

/-- A result dict: a field is `none` exactly when the key is absent from
the dict the Python handler returns. -/
structure Result where
  failed : Option Bool := none
  msg : Option String := none
  changed : Option Bool := none
  vm_id : Option Int := none
  actions : Option (List String) := none
  conf : Option Conf := none
deriving Repr, DecidableEq

/-- Rendering input of `gen_template`: the `params` dict at the time the
template is generated (`disks` already replaced by the list of disk dicts
built in `create_vm`, each dict a key/value list in insertion order). -/
structure GenParams where
  cpu : Nat := 2
  vcpu : Nat := 2
  memory : Nat := 2048
  nics : List Int := []
  ips : List (Option String) := []
  graphics : List (String × String) := []
  ssh_keys : List String := []
  disks : List (List (String × String)) := []

/-- Python `s[:-1]`: drop the last character. -/
def pyStripLast (s : String) : String := String.mk s.data.dropLast

/-- Python `lst[-1] = lst[-1][:-1]`: strip the last character of the last
element of a line list. -/
def dropLastChar : List String → List String
  | [] => []
  | [x] => [pyStripLast x]
  | x :: y :: xs => x :: dropLastChar (y :: xs)

/-- Python `str.upper()` on the ASCII keys used here, character by
character. -/
def pyUpper (s : String) : String := String.mk (s.data.map Char.toUpper)

/-- An inner assignment line of a bracketed block:
`'  {:s} = "{:s}"'.format(key.upper(), value)`. -/
def innerAssign (k v : String) : String :=
  "  " ++ pyUpper k ++ " = \"" ++ v ++ "\""

/-- An inner assignment line followed by the field separator, as first
appended by the source before the last one is stripped. -/
def fieldLine (kv : String × String) : String := innerAssign kv.1 kv.2 ++ ","

/-- `'  NETWORK_ID = "{}"'.format(nic_id)` without its separator. -/
def netIdLine (nid : Int) : String := "  NETWORK_ID = \"" ++ toString nid ++ "\""

/-- `'  IP = "{}"'.format(nic_ip)` without its separator. -/
def ipLine (ip : String) : String := "  IP = \"" ++ ip ++ "\""

/-- One `NIC` block (lines 173-186): `NETWORK_ID` always, `IP` when the
same-index entry of `ips` exists and is truthy, then the separator of the
last line is stripped and the block is closed. -/
def nicBlock (ips : List (Option String)) (idx : Nat) (nid : Int) : List String :=
  let ps := ["NIC = [", netIdLine nid ++ ","]
  let ps2 := match ips.get? idx with
    | some (some ip) => if ip == "" then ps else ps ++ [ipLine ip ++ ","]
    | _ => ps
  dropLastChar ps2 ++ ["]"]

/-- The `GRAPHICS` block (lines 188-195), emitted only for a non-empty
graphics dict. -/
def graphicsBlock (graphics : List (String × String)) : List String :=
  dropLastChar ("GRAPHICS = [" :: graphics.map fieldLine) ++ ["]"]

/-- The `CONTEXT` block (lines 197-202): a single `SSH_PUBLIC_KEY` line,
never followed by a separator. -/
def contextBlock (ssh_keys : List String) : List String :=
  ["CONTEXT = [",
   "  SSH_PUBLIC_KEY = \"" ++ String.intercalate "\n" ssh_keys ++ "\"",
   "]"]

/-- One `DISK` block (lines 205-212). -/
def diskBlock (d : List (String × String)) : List String :=
  dropLastChar ("DISK = [" :: d.map fieldLine) ++ ["]"]

/-- The line list accumulated in `template_params` by `gen_template`
(lines 166-213). -/
def gen_template_lines (p : GenParams) : List String :=
  ["CPU = \"" ++ toString p.cpu ++ "\"",
   "VCPU = \"" ++ toString p.vcpu ++ "\"",
   "MEMORY = \"" ++ toString p.memory ++ "\""]
  ++ (p.nics.enum.map (fun ni => nicBlock p.ips ni.1 ni.2)).flatten
  ++ (if p.graphics.isEmpty then [] else graphicsBlock p.graphics)
  ++ (if p.ssh_keys.isEmpty then [] else contextBlock p.ssh_keys)
  ++ (p.disks.map diskBlock).flatten

/-- `gen_template` (line 214): the lines joined by newlines. -/
def gen_template (p : GenParams) : String :=
  String.intercalate "\n" (gen_template_lines p)

/-- The parameter dict as handlers receive it from `core` (after the
argument-spec defaults applied). -/
structure Params where
  name : String
  template_id : Option Int := none
  cpu : Nat := 2
  vcpu : Nat := 2
  memory : Nat := 2048
  graphics : List (String × String) := [("type", "vnc")]
  nics : List Int := []
  ips : List (Option String) := []
  disks : List Int := []
  ssh_keys : List String := []

/-- The key/value pairs of the image template dict of `create_image`
(lines 233-243); the source's dict literal repeats the key `driver`
(both times with value `raw`), so the dict keeps a single `driver` entry
at its first position. -/
def create_image_items (name : String) (size : Int) : List (String × String) :=
  [("name", name), ("persistent", "yes"), ("driver", "raw"),
   ("size", toString size), ("type", "datablock")]

/-- The template string `create_image` passes to `image.allocate`:
`'{:s}={:s}'.format(param.upper(), str(value))` joined by newlines. -/
def create_image_template (name : String) (size : Int) : String :=
  String.intercalate "\n"
    ((create_image_items name size).map (fun kv => pyUpper kv.1 ++ "=" ++ kv.2))

/-- The remote call issued by `create_image` (line 244): allocate the
image template in datastore 101. -/
def create_image_call (name : String) (size : Int) : Call :=
  Call.imageAllocate (create_image_template name size) 101

/-- `'{:s}-data{:d}'.format(params['name'], idx + 1)` (line 262). -/
def disk_name (name : String) (idx : Nat) : String :=
  name ++ "-data" ++ toString (idx + 1)

/-- The `image.allocate` calls issued by the disk loop of `create_vm`
(lines 261-265), one per requested size, in list order. -/
def alloc_calls (name : String) : Nat → List Int → List Call
  | _, [] => []
  | idx, size :: rest =>
    create_image_call (disk_name name idx) size :: alloc_calls name (idx + 1) rest

/-- The `{'image_id': ...}` dicts appended by the disk loop, with the
image id returned by the corresponding allocation. -/
def image_disks (env : Env) : Nat → List Int → List (List (String × String))
  | _, [] => []
  | idx, _ :: rest =>
    [("image_id", env.allocId idx)] :: image_disks env (idx + 1) rest

/-- The params dict as `create_vm` hands it to `gen_template`: when disks
are requested their size list is replaced by the base template's disk
followed by one image reference per allocation, and the template's ssh
keys are appended to the caller's (lines 255-271). -/
def create_vm_genparams (env : Env) (p : Params) : GenParams :=
  { cpu := p.cpu, vcpu := p.vcpu, memory := p.memory,
    nics := p.nics, ips := p.ips, graphics := p.graphics,
    ssh_keys := p.ssh_keys ++ (env.templateInfos.ssh_keys.getD []),
    disks :=
      if p.disks.isEmpty then []
      else [("image", env.templateInfos.disk.image),
            ("image_uname", env.templateInfos.disk.image_uname)]
           :: image_disks env 0 p.disks }

/-- `create_vm` (lines 246-283): no-op when the machine exists; otherwise
fetch the template infos, allocate one image per requested disk, then
instantiate on hold with the rendered template. -/
def create_vm (env : Env) (vm : VmInfo) (p : Params) : Result × List Call :=
  if vm.state.isSome then
    ({ changed := some false, vm_id := some vm.id, actions := some [] }, [])
  else
    ({ changed := some true, vm_id := some env.instantiateId,
       actions := some ["created"] },
     Call.templateInfo p.template_id
       :: alloc_calls p.name 0 p.disks
       ++ [Call.templateInstantiate p.template_id vm.name true
             (gen_template (create_vm_genparams env p)) false])

/-- `delete_vm` (lines 285-290); its no-op branch returns a dict holding
only the `changed` key. -/
def delete_vm (vm : VmInfo) : Result × List Call :=
  if vm.state = none then
    ({ changed := some false }, [])
  else
    ({ changed := some true, vm_id := some (-1), actions := some ["terminated"] },
     [Call.vmAction "terminate" vm.id])

/-- `start_vm` (lines 292-309): no-op when active; create first when
absent (the fresh machine is then treated as held); release a held
machine, resume any other. -/
def start_vm (env : Env) (vm : VmInfo) (p : Params) : Result × List Call :=
  if vm.state = some "active" then
    ({ changed := some false, vm_id := some vm.id, actions := some [] }, [])
  else
    let (vmId, vmState, acts, calls) :=
      if vm.state = none then
        ((create_vm env vm p).1.vm_id.getD vm.id, some "hold",
         ["created"], (create_vm env vm p).2)
      else (vm.id, vm.state, [], [])
    if vmState = some "hold" then
      ({ changed := some true, vm_id := some vmId, actions := some (acts ++ ["released"]) },
       calls ++ [Call.vmAction "release" vmId])
    else
      ({ changed := some true, vm_id := some vmId, actions := some (acts ++ ["started"]) },
       calls ++ [Call.vmAction "resume" vmId])

/-- `stop_vm` (lines 311-320). -/
def stop_vm (vm : VmInfo) : Result × List Call :=
  if vm.state = none then
    ({ failed := some true, msg := some NOT_EXISTS_ERR }, [])
  else if vm.state = some "hold" ∨ vm.state = some "stopped" then
    ({ changed := some false, vm_id := some vm.id, actions := some [] }, [])
  else
    ({ changed := some true, vm_id := some vm.id, actions := some ["stopped"] },
     [Call.vmAction "poweroff" vm.id])

/-- `suspend_vm` (lines 322-333). -/
def suspend_vm (vm : VmInfo) : Result × List Call :=
  if vm.state = none then
    ({ failed := some true, msg := some NOT_EXISTS_ERR }, [])
  else if vm.state = some "suspended" then
    ({ changed := some false, vm_id := some vm.id, actions := some [] }, [])
  else if vm.state ≠ some "active" then
    ({ failed := some true,
       msg := some "only an active virtual machine can be suspended!" }, [])
  else
    ({ changed := some true, vm_id := some vm.id, actions := some ["suspended"] },
     [Call.vmAction "suspend" vm.id])

/-- `resume_vm` (lines 335-346). -/
def resume_vm (vm : VmInfo) : Result × List Call :=
  if vm.state = none then
    ({ failed := some true, msg := some NOT_EXISTS_ERR }, [])
  else if vm.state = some "active" then
    ({ changed := some false, vm_id := some vm.id, actions := some [] }, [])
  else if vm.state ≠ some "suspended" then
    ({ failed := some true,
       msg := some "only a suspended virtual machine can be resumed!" }, [])
  else
    ({ changed := some true, vm_id := some vm.id, actions := some ["resumed"] },
     [Call.vmAction "resume" vm.id])

/-- `undeploy_vm` (lines 348-356): note the guard literal is `"undeploy"`
while the state table translates wire code 9 to `"undeployed"`. -/
def undeploy_vm (vm : VmInfo) : Result × List Call :=
  if vm.state = none then
    ({ failed := some true, msg := some NOT_EXISTS_ERR }, [])
  else if vm.state = some "undeploy" then
    ({ changed := some false, vm_id := some vm.id, actions := some [] }, [])
  else
    ({ changed := some true, vm_id := some vm.id, actions := some ["undeployed"] },
     [Call.vmAction "undeploy" vm.id])

/-- `retrieve_vm` (lines 216-230): fail on an absent machine, otherwise
fetch the detail payload and report an unchanged result; the `error` case
models the `KeyError` on an untranslatable detail state code. -/
def retrieve_vm (env : Env) (vm : VmInfo) : Except String (Result × List Call) :=
  if vm.state = none then
    Except.ok ({ failed := some true, msg := some NOT_EXISTS_ERR }, [])
  else
    match lookupState env.detailStateCode with
    | none => Except.error ("KeyError: " ++ env.detailStateCode)
    | some st =>
      Except.ok
        ({ changed := some false, vm_id := some vm.id,
           conf := some { uid := env.detailUid, gid := env.detailGid,
                          uname := env.detailUname, gname := env.detailGname,
                          state := st, cpu := env.detailCpu,
                          vcpu := env.detailVcpu, memory := env.detailMemory,
                          ips := env.detailIps } },
         [Call.vmInfo vm.id])

/-- The pre-validation of `core` (lines 366-369): the failure dict it
returns before any remote call, or `none` when validation passes. -/
def core_validate (state : String) (p : Params) : Option Result :=
  if (state = "present" ∨ state = "started") ∧ p.template_id = none then
    some { failed := some true, msg := some "missing required argument: template_id" }
  else if ¬ p.ips.isEmpty ∧ p.ips.length ≠ p.nics.length then
    some { failed := some true,
           msg := some "when defined, 'ips' must have the size as 'nics'" }
  else none

/-- The classification done by `main` (line 419): `'failed' in result`. -/
def classify_failed (r : Result) : Bool := r.failed.isSome

/-- Shape of a handler result: a failure carries `failed = true` plus a
message and no `changed` key, a success carries `changed` and no
`failed` key. -/
def resultWellFormed (r : Result) : Bool :=
  (r.failed == some true && r.msg.isSome && r.changed == none)
  || (r.failed == none && r.changed.isSome)

/-- True when the string's last character is the field separator. -/
def endsWithComma (s : String) : Bool := s.data.getLast? == some ','

/-- No line directly preceding a block-closing `]` line ends with the
field separator. -/
def noDangling : List String → Bool
  | a :: b :: rest =>
    ((b != "]") || (! endsWithComma a)) && noDangling (b :: rest)
  | _ => true

/-- Holds when a `retrieve_vm` outcome does not report a change: either
the `KeyError` propagates (no dict is returned at all), or the returned
dict's `changed` value is not `true`. -/
def retrieveNeverChanged (x : Except String (Result × List Call)) : Prop :=
  match x with
  | Except.error _ => True
  | Except.ok rc => rc.1.changed ≠ some true

/-- A concrete remote environment used to instantiate the universally
quantified theorems at sample inputs. -/
def env0 : Env :=
  { templateInfos := { disk := { image := "base", image_uname := "oneadmin" },
                       ssh_keys := some ["tkey"] },
    allocId := fun n => toString (50 + n),
    instantiateId := 42,
    detailUid := "0", detailGid := "0", detailUname := "adm",
    detailGname := "grp", detailStateCode := "3", detailCpu := "2",
    detailVcpu := "2", detailMemory := "2048", detailIps := ["10.0.0.1"] }

/-- A concrete parameter dict requesting two additional disks. -/
def params0 : Params :=
  { name := "web", template_id := some 9, disks := [10, 20] }

/-- C1: the source raises its duplicate-name error only for strictly more
than two matches (`len(vms) > 2`); with exactly two machines of the
requested name the lookup silently returns the first match's id and
state, contradicting the claimed `AmbiguousNameError`.  Three matches do
raise. -/
theorem C1_duplicate_name_returns_first :
    get_vm_info [{ name := "web", id := 4, stateCode := "3" },
                 { name := "web", id := 7, stateCode := "5" }] "web"
      = Except.ok { name := "web", id := 4, state := some "active" }
    ∧ get_vm_info [{ name := "web", id := 4, stateCode := "3" },
                 { name := "web", id := 7, stateCode := "5" },
                 { name := "web", id := 9, stateCode := "2" }] "web"
      = Except.error (LookupErr.oneError "Multiples VMs have the same name!") := by
  exact ⟨rfl, rfl⟩

/-- C2 counterexample: for target `absent` on an already absent machine
the no-op result is `{'changed': False}` alone — it carries no action
list at all, so the claimed "empty action list" is absent, not empty. -/
theorem C2_counterexample :
    (delete_vm { name := "web", id := -1, state := none }).1.changed = some false
    ∧ (delete_vm { name := "web", id := -1, state := none }).1.actions ≠ some [] := by
  exact ⟨rfl, by decide⟩

/-- C2 (amended): every no-op transition of the §4.4 table returns
`changed = false` and issues no remote call; all of them also return an
empty action list except target `absent` on an absent machine, whose
result holds only the `changed` key. -/
theorem C2_noop_transitions (env : Env) (p : Params) (name : String) (id : Int)
    (s : String) :
    delete_vm { name := name, id := id, state := none }
      = ({ changed := some false }, [])
    ∧ stop_vm { name := name, id := id, state := some "hold" }
      = ({ changed := some false, vm_id := some id, actions := some [] }, [])
    ∧ stop_vm { name := name, id := id, state := some "stopped" }
      = ({ changed := some false, vm_id := some id, actions := some [] }, [])
    ∧ start_vm env { name := name, id := id, state := some "active" } p
      = ({ changed := some false, vm_id := some id, actions := some [] }, [])
    ∧ suspend_vm { name := name, id := id, state := some "suspended" }
      = ({ changed := some false, vm_id := some id, actions := some [] }, [])
    ∧ resume_vm { name := name, id := id, state := some "active" }
      = ({ changed := some false, vm_id := some id, actions := some [] }, [])
    ∧ create_vm env { name := name, id := id, state := some s } p
      = ({ changed := some false, vm_id := some id, actions := some [] }, []) := by
  exact ⟨rfl, rfl, rfl, rfl, rfl, rfl, rfl⟩

/-- C3: for every symbolic state the translator can produce (including
`undeployed`), the `undeployed` handler issues the undeploy action and
reports a change — its no-op guard tests the literal `"undeploy"`, which
is not among the translator's values, so the already-undeployed no-op
branch is unreachable. -/
theorem C3_undeploy_always_acts (name : String) (id : Int) (s : String)
    (hs : s ∈ ONE_STATES_MAP.map Prod.snd) :
    undeploy_vm { name := name, id := id, state := some s }
      = ({ changed := some true, vm_id := some id, actions := some ["undeployed"] },
         [Call.vmAction "undeploy" id])
    ∧ "undeploy" ∉ ONE_STATES_MAP.map Prod.snd := by
  refine ⟨?_, by decide⟩
  have hne : s ≠ "undeploy" := by
    simp only [ONE_STATES_MAP, List.map_cons, List.map_nil, List.mem_cons,
      List.not_mem_nil, or_false] at hs
    rcases hs with rfl | rfl | rfl | rfl | rfl | rfl | rfl | rfl | rfl | rfl | rfl <;>
      decide
  simp [undeploy_vm, hne]

/-- C3 witness: a machine already in the translated `undeployed` state is
still undeployed again. -/
theorem C3_undeploy_always_acts_witness :
    undeploy_vm { name := "web", id := 5, state := some "undeployed" }
      = ({ changed := some true, vm_id := some 5, actions := some ["undeployed"] },
         [Call.vmAction "undeploy" 5])
    ∧ "undeploy" ∉ ONE_STATES_MAP.map Prod.snd :=
  C3_undeploy_always_acts "web" 5 "undeployed" (by decide)

/-- C5: starting an absent machine creates it, treats it as held, then
releases it: the result reports a change with action list exactly
`["created", "released"]`, and the release call follows the whole
creation call sequence. -/
theorem C5_started_on_absent (env : Env) (p : Params) (name : String) (id : Int) :
    start_vm env { name := name, id := id, state := none } p
      = ({ changed := some true, vm_id := some env.instantiateId,
           actions := some ["created", "released"] },
         (create_vm env { name := name, id := id, state := none } p).2
           ++ [Call.vmAction "release" env.instantiateId]) := by
  simp [start_vm, create_vm]

/-- C6: suspending an existing machine in any state other than `active`
and `suspended` fails with the invalid-transition message and performs no
remote action, while suspending an `active` machine issues the suspend
action and reports a change with action list `["suspended"]`. -/
theorem C6_suspend_transitions :
    (∀ (name : String) (id : Int) (s : String), s ≠ "active" → s ≠ "suspended" →
      suspend_vm { name := name, id := id, state := some s }
        = ({ failed := some true,
             msg := some "only an active virtual machine can be suspended!" }, []))
    ∧ (∀ (name : String) (id : Int),
      suspend_vm { name := name, id := id, state := some "active" }
        = ({ changed := some true, vm_id := some id, actions := some ["suspended"] },
           [Call.vmAction "suspend" id])) := by
  constructor
  · intro name id s h1 h2
    simp [suspend_vm, h1, h2]
  · intro name id
    rfl

/-- C6 witness: suspend fails on a `stopped` machine and succeeds on an
`active` one. -/
theorem C6_suspend_transitions_witness :
    suspend_vm { name := "web", id := 5, state := some "stopped" }
      = ({ failed := some true,
           msg := some "only an active virtual machine can be suspended!" }, [])
    ∧ suspend_vm { name := "web", id := 5, state := some "active" }
      = ({ changed := some true, vm_id := some 5, actions := some ["suspended"] },
         [Call.vmAction "suspend" 5]) :=
  ⟨C6_suspend_transitions.1 "web" 5 "stopped" (by decide) (by decide),
   C6_suspend_transitions.2 "web" 5⟩

/-- C7: the retrieve handler fails with the not-found message when the
machine is absent, and whatever the machine's state and the detail
payload, it never returns a result whose `changed` value is `true`. -/
theorem C7_retrieve_no_change (env : Env) (vm : VmInfo) (name : String) (id : Int) :
    retrieve_vm env { name := name, id := id, state := none }
      = Except.ok ({ failed := some true, msg := some NOT_EXISTS_ERR }, [])
    ∧ retrieveNeverChanged (retrieve_vm env vm) := by
  constructor
  · rfl
  · unfold retrieveNeverChanged retrieve_vm
    by_cases h : vm.state = none
    · simp [h]
    · simp only [h, if_false]
      cases hl : lookupState env.detailStateCode <;> simp

/-- C4: creating an absent machine with requested disk sizes `[10, 20]`
issues exactly two image allocations, named `<name>-data1` and
`<name>-data2` in that order, both strictly before the instantiate call,
and the disk list handed to the renderer has three entries (the base
template's disk plus one per allocated image). -/
theorem C4_two_disks_creation (env : Env) (p : Params) (vm : VmInfo)
    (hd : p.disks = [10, 20]) (hvm : vm.state = none) (hname : vm.name = p.name) :
    (create_vm env vm p).2
      = [Call.templateInfo p.template_id,
         create_image_call (p.name ++ "-data1") 10,
         create_image_call (p.name ++ "-data2") 20,
         Call.templateInstantiate p.template_id p.name true
           (gen_template (create_vm_genparams env p)) false]
    ∧ (create_vm_genparams env p).disks.length = 3 := by
  have d1 : disk_name p.name 0 = p.name ++ "-data1" := by
    rw [disk_name, String.append_assoc]; rfl
  have d2 : disk_name p.name 1 = p.name ++ "-data2" := by
    rw [disk_name, String.append_assoc]; rfl
  constructor
  · simp [create_vm, hvm, hname, hd, alloc_calls, d1, d2]
  · simp [create_vm_genparams, hd, image_disks]

/-- C4 witness: the creation trace at a concrete environment and a
concrete parameter dict with disks `[10, 20]`. -/
theorem C4_two_disks_creation_witness :
    (create_vm env0 { name := "web", id := -1, state := none } params0).2
      = [Call.templateInfo params0.template_id,
         create_image_call (params0.name ++ "-data1") 10,
         create_image_call (params0.name ++ "-data2") 20,
         Call.templateInstantiate params0.template_id params0.name true
           (gen_template (create_vm_genparams env0 params0)) false]
    ∧ (create_vm_genparams env0 params0).disks.length = 3 :=
  C4_two_disks_creation env0 params0 { name := "web", id := -1, state := none }
    rfl rfl rfl

/-- Every call the disk loop emits is the allocation of the image named
after the machine and the 1-based position of its size in the list. -/
theorem mem_alloc_calls (name : String) (c : Call) :
    ∀ (idx : Nat) (sizes : List Int), c ∈ alloc_calls name idx sizes →
      ∃ j size, sizes[j]? = some size
        ∧ c = create_image_call (disk_name name (idx + j)) size := by
  intro idx sizes
  induction sizes generalizing idx with
  | nil => intro h; exact absurd h (List.not_mem_nil c)
  | cons size rest ih =>
    intro h
    rcases List.mem_cons.mp h with h1 | h2
    · exact ⟨0, size, by simp, by simpa using h1⟩
    · obtain ⟨j, sz, hg, hc⟩ := ih (idx + 1) h2
      refine ⟨j + 1, sz, by simpa using hg, ?_⟩
      rw [hc]
      have : idx + 1 + j = idx + (j + 1) := by omega
      rw [this]

/-- C9: every handler result is either a failure dict (`failed = true`
with a message and no `changed` key) or a success dict (`changed` present
and no `failed` key), never both; the same holds for the dicts produced
by core's pre-validation; and on well-formed results the classification
done by `main` (presence of the `failed` key) coincides with the absence
of the `changed` key. -/
theorem C9_result_disjoint :
    (∀ (env : Env) (vm : VmInfo) (p : Params),
      resultWellFormed (create_vm env vm p).1 = true)
    ∧ (∀ vm, resultWellFormed (delete_vm vm).1 = true)
    ∧ (∀ (env : Env) (vm : VmInfo) (p : Params),
      resultWellFormed (start_vm env vm p).1 = true)
    ∧ (∀ vm, resultWellFormed (stop_vm vm).1 = true)
    ∧ (∀ vm, resultWellFormed (suspend_vm vm).1 = true)
    ∧ (∀ vm, resultWellFormed (resume_vm vm).1 = true)
    ∧ (∀ vm, resultWellFormed (undeploy_vm vm).1 = true)
    ∧ (∀ (env : Env) (vm : VmInfo) (r : Result) (calls : List Call),
        retrieve_vm env vm = Except.ok (r, calls) → resultWellFormed r = true)
    ∧ (∀ (state : String) (p : Params) (r : Result),
        core_validate state p = some r → resultWellFormed r = true)
    ∧ (∀ r : Result, resultWellFormed r = true →
        (classify_failed r = true ↔ r.changed = none)) := by
  refine ⟨?_, ?_, ?_, ?_, ?_, ?_, ?_, ?_, ?_, ?_⟩
  · intro env vm p; unfold create_vm; split <;> rfl
  · intro vm; unfold delete_vm; split <;> rfl
  · intro env vm p
    unfold start_vm
    split
    · rfl
    · split
      split <;> rfl
  · intro vm
    unfold stop_vm
    split
    · rfl
    · split <;> rfl
  · intro vm
    unfold suspend_vm
    split
    · rfl
    · split
      · rfl
      · split <;> rfl
  · intro vm
    unfold resume_vm
    split
    · rfl
    · split
      · rfl
      · split <;> rfl
  · intro vm
    unfold undeploy_vm
    split
    · rfl
    · split <;> rfl
  · intro env vm r calls h
    unfold retrieve_vm at h
    split at h
    · simp only [Except.ok.injEq, Prod.mk.injEq] at h
      rw [← h.1]; rfl
    · split at h
      · cases h
      · simp only [Except.ok.injEq, Prod.mk.injEq] at h
        rw [← h.1]; rfl
  · intro state p r h
    unfold core_validate at h
    split at h
    · rw [← Option.some.injEq _ r |>.mp h]; rfl
    · split at h
      · rw [← Option.some.injEq _ r |>.mp h]; rfl
      · cases h
  · intro r h
    simp only [resultWellFormed, Bool.or_eq_true, Bool.and_eq_true, beq_iff_eq] at h
    rcases h with ⟨⟨hf, _⟩, hc⟩ | ⟨hf, hc⟩
    · simp [classify_failed, hf, hc]
    · constructor
      · intro hcl
        rw [classify_failed, hf] at hcl
        cases hcl
      · intro hnone
        rw [hnone] at hc
        cases hc

/-- C9 witness: a failure result and a success result at concrete
inputs. -/
theorem C9_result_disjoint_witness :
    resultWellFormed (suspend_vm { name := "web", id := 5, state := some "stopped" }).1
      = true
    ∧ (classify_failed { failed := some true, msg := some NOT_EXISTS_ERR } = true
        ↔ ({ failed := some true, msg := some NOT_EXISTS_ERR } : Result).changed = none) :=
  ⟨C9_result_disjoint.2.2.2.2.1 { name := "web", id := 5, state := some "stopped" },
   C9_result_disjoint.2.2.2.2.2.2.2.2.2
     { failed := some true, msg := some NOT_EXISTS_ERR } (by decide)⟩

/-- C10: every image allocated for an additional disk uses the fixed
template — NAME, PERSISTENT yes, DRIVER raw, the requested SIZE, TYPE
datablock — and lands in datastore 101; and every `image.allocate` call
of a creation trace, for any caller-supplied parameters, targets
datastore 101 with exactly that template for one of the requested
sizes. -/
theorem C10_image_allocation_fixed :
    (∀ (name : String) (size : Int),
      create_image_call name size
        = Call.imageAllocate
            (String.intercalate "\n"
              ["NAME=" ++ name, "PERSISTENT=yes", "DRIVER=raw",
               "SIZE=" ++ toString size, "TYPE=datablock"]) 101)
    ∧ (∀ (env : Env) (vm : VmInfo) (p : Params) (c : Call),
        c ∈ (create_vm env vm p).2 →
        ∀ t d, c = Call.imageAllocate t d →
          d = 101 ∧ ∃ i size, p.disks[i]? = some size
            ∧ t = create_image_template (disk_name p.name i) size) := by
  constructor
  · intro name size; rfl
  · intro env vm p c hc t d hcall
    unfold create_vm at hc
    split at hc
    · simp at hc
    · rcases List.mem_append.mp hc with hc2 | hsing
      · rcases List.mem_cons.mp hc2 with rfl | hmem
        · cases hcall
        · obtain ⟨j, sz, hg, rfl⟩ := mem_alloc_calls p.name c 0 p.disks hmem
          rw [create_image_call] at hcall
          injection hcall with ht hd
          refine ⟨hd.symm, j, sz, hg, ?_⟩
          rw [← ht]
          simp
      · obtain rfl := List.mem_singleton.mp hsing
        cases hcall

/-- A string closed by a quote does not end with the field separator. -/
theorem endsWithComma_append_quote (q : String) :
    endsWithComma (q ++ "\"") = false := by
  rw [endsWithComma,
    show (q ++ "\"").data = q.data ++ ['"'] from String.data_append q "\"",
    List.getLast?_concat]
  rfl

/-- Stripping the last character undoes appending the field separator. -/
theorem pyStripLast_comma (q : String) : pyStripLast (q ++ ",") = q := by
  rw [pyStripLast,
    show (q ++ ",").data = q.data ++ [','] from String.data_append q ",",
    List.dropLast_concat]

/-- `dropLastChar` only rewrites the final element. -/
theorem dropLastChar_concat (xs : List String) (y : String) :
    dropLastChar (xs ++ [y]) = xs ++ [pyStripLast y] := by
  induction xs with
  | nil => rfl
  | cons x xs ih =>
    cases xs with
    | nil => rfl
    | cons x2 xs2 =>
      simp only [List.cons_append] at ih ⊢
      rw [dropLastChar, ih]

/-- A string of length at least two is not the closing-bracket line. -/
theorem ne_rbracket_of_two_le (s : String) (h : 2 ≤ s.length) : s ≠ "]" := by
  intro heq
  rw [heq] at h
  exact absurd h (by decide)

/-- Prepending keeps a long string long. -/
theorem two_le_length_left (a b : String) (h : 2 ≤ a.length) :
    2 ≤ (a ++ b).length := by
  rw [String.length_append]; omega

/-- Inner assignment lines are never the closing-bracket line. -/
theorem innerAssign_ne_rbracket (k v : String) : innerAssign k v ≠ "]" :=
  ne_rbracket_of_two_le _
    (two_le_length_left _ _ (two_le_length_left _ _ (two_le_length_left _ _
      (two_le_length_left _ _ (by decide)))))

/-- Separator-carrying field lines are never the closing-bracket line. -/
theorem fieldLine_ne_rbracket (kv : String × String) : fieldLine kv ≠ "]" :=
  ne_rbracket_of_two_le _ (two_le_length_left _ _
    (two_le_length_left _ _ (two_le_length_left _ _ (two_le_length_left _ _
      (two_le_length_left _ _ (by decide))))))

/-- Inner assignment lines end with the closing quote, not the
separator. -/
theorem endsWithComma_innerAssign (k v : String) :
    endsWithComma (innerAssign k v) = false :=
  endsWithComma_append_quote ("  " ++ pyUpper k ++ " = \"" ++ v)

/-- A list with no closing-bracket line vacuously has no dangling
separator. -/
theorem noDangling_of_no_rbracket :
    ∀ (ys : List String), (∀ y ∈ ys, y ≠ "]") → noDangling ys = true
  | [], _ => rfl
  | [_], _ => rfl
  | y1 :: y2 :: ys, h => by
    have hy2 : (y2 != "]") = true :=
      bne_iff_ne.mpr (h y2 (List.mem_cons_of_mem y1 (List.mem_cons_self y2 ys)))
    have hrec := noDangling_of_no_rbracket (y2 :: ys)
      (fun y hy => h y (List.mem_cons_of_mem y1 hy))
    simp [noDangling, hy2, hrec]

/-- A block whose inner lines contain no closing bracket and whose last
inner line does not end with the separator has no dangling separator. -/
theorem noDangling_block :
    ∀ (ys : List String), (∀ y ∈ ys, y ≠ "]") →
    (∀ a, ys.getLast? = some a → endsWithComma a = false) →
    noDangling (ys ++ ["]"]) = true
  | [], _, _ => rfl
  | [y], _, h2 => by
    have hy := h2 y rfl
    simp [noDangling, hy]
  | y1 :: y2 :: ys, h1, h2 => by
    have hy2 : (y2 != "]") = true :=
      bne_iff_ne.mpr (h1 y2 (List.mem_cons_of_mem y1 (List.mem_cons_self y2 ys)))
    have hrec := noDangling_block (y2 :: ys)
      (fun y hy => h1 y (List.mem_cons_of_mem y1 hy))
      (fun a ha => h2 a (by rw [List.getLast?_cons_cons]; exact ha))
    simp only [List.cons_append] at hrec ⊢
    simp [noDangling, hy2, hrec]

/-- Concatenation preserves the no-dangling-separator property when the
second part does not open with a closing-bracket line. -/
theorem noDangling_append :
    ∀ (xs ys : List String), noDangling xs = true → noDangling ys = true →
    (∀ b, ys.head? = some b → b ≠ "]") →
    noDangling (xs ++ ys) = true
  | [], _, _, hy, _ => hy
  | [x], ys, _, hy, hh => by
    cases ys with
    | nil => rfl
    | cons b rest =>
      have hb : (b != "]") = true := bne_iff_ne.mpr (hh b rfl)
      simp [noDangling, hb, hy]
  | x1 :: x2 :: xs, ys, hx, hy, hh => by
    simp only [noDangling, Bool.and_eq_true] at hx
    have hrec := noDangling_append (x2 :: xs) ys hx.2 hy hh
    simp only [List.cons_append] at hrec ⊢
    simp [noDangling, hx.1, hrec]

/-- Flattening blocks that each satisfy the property and each open with a
non-bracket line yields the property, and the flattening opens with a
non-bracket line. -/
theorem noDangling_flatten (cs : List (List String))
    (h1 : ∀ c ∈ cs, noDangling c = true)
    (h2 : ∀ c ∈ cs, ∀ b, c.head? = some b → b ≠ "]") :
    noDangling cs.flatten = true
    ∧ ∀ b, cs.flatten.head? = some b → b ≠ "]" := by
  induction cs with
  | nil => exact ⟨rfl, fun b hb => by cases hb⟩
  | cons c cs ih =>
    obtain ⟨ihd, ihh⟩ := ih
      (fun c hc => h1 c (List.mem_cons_of_mem _ hc))
      (fun c hc => h2 c (List.mem_cons_of_mem _ hc))
    refine ⟨?_, ?_⟩
    · exact noDangling_append c cs.flatten
        (h1 c (List.mem_cons_self c cs)) ihd ihh
    · intro b hb
      simp only [List.flatten_cons] at hb
      cases c with
      | nil => exact ihh b (by simpa using hb)
      | cons a t =>
        have hba : a = b := by simpa using hb
        subst hba
        exact h2 (a :: t) (List.mem_cons_self _ cs) a rfl

/-- A two-line block (header, single inner line, closer) is clean when
its inner line is long and ends without the separator. -/
theorem block2_ok (hd x : String) (hx : x ≠ "]")
    (hc : endsWithComma x = false) :
    noDangling [hd, x, "]"] = true := by
  have hx2 : (x != "]") = true := bne_iff_ne.mpr hx
  simp [noDangling, hx2, hc]

/-- A three-line block (header, two inner lines, closer) is clean when
the inner lines avoid the closer and the last ends without the
separator. -/
theorem block3_ok (hd x y : String) (hx : x ≠ "]") (hy : y ≠ "]")
    (hc : endsWithComma y = false) :
    noDangling [hd, x, y, "]"] = true := by
  have hx2 : (x != "]") = true := bne_iff_ne.mpr hx
  have hy2 : (y != "]") = true := bne_iff_ne.mpr hy
  simp [noDangling, hx2, hy2, hc]

/-- The `NETWORK_ID` line is not the closing-bracket line. -/
theorem netIdLine_ne_rbracket (nid : Int) : netIdLine nid ≠ "]" :=
  ne_rbracket_of_two_le _
    (two_le_length_left _ _ (two_le_length_left _ _ (by decide)))

/-- The `NETWORK_ID` line ends with the closing quote. -/
theorem endsWithComma_netIdLine (nid : Int) :
    endsWithComma (netIdLine nid) = false :=
  endsWithComma_append_quote ("  NETWORK_ID = \"" ++ toString nid)

/-- The separator-carrying `NETWORK_ID` line is not the closer. -/
theorem netIdComma_ne_rbracket (nid : Int) : netIdLine nid ++ "," ≠ "]" :=
  ne_rbracket_of_two_le _ (two_le_length_left _ _
    (two_le_length_left _ _ (two_le_length_left _ _ (by decide))))

/-- The `IP` line is not the closing-bracket line. -/
theorem ipLine_ne_rbracket (ip : String) : ipLine ip ≠ "]" :=
  ne_rbracket_of_two_le _
    (two_le_length_left _ _ (two_le_length_left _ _ (by decide)))

/-- The `IP` line ends with the closing quote. -/
theorem endsWithComma_ipLine (ip : String) :
    endsWithComma (ipLine ip) = false :=
  endsWithComma_append_quote ("  IP = \"" ++ ip)

/-- The head of a stripped block of at least two lines is its header. -/
theorem head_dropLastChar_cons2 (x y : String) (rest any : List String) :
    (dropLastChar (x :: y :: rest) ++ any).head? = some x := rfl

/-- Any block rendered as a header, comma-terminated field lines and a
closer, with the separator of the last line stripped, is clean and opens
with a non-closer line. -/
theorem strip_block_ok (header : String) (fields : List (String × String))
    (hh : header ≠ "]") (hh1 : pyStripLast header ≠ "]")
    (hh2 : endsWithComma (pyStripLast header) = false) :
    noDangling (dropLastChar (header :: fields.map fieldLine) ++ ["]"]) = true
    ∧ ∀ b, (dropLastChar (header :: fields.map fieldLine) ++ ["]"]).head? = some b →
        b ≠ "]" := by
  rcases List.eq_nil_or_concat fields with rfl | ⟨fs, kv, rfl⟩
  · refine ⟨?_, ?_⟩
    · exact noDangling_block [pyStripLast header]
        (fun y hy => by
          obtain rfl := List.mem_singleton.mp hy
          exact hh1)
        (fun a ha => by
          obtain rfl : pyStripLast header = a := by simpa using ha
          exact hh2)
    · intro b hb
      obtain rfl : pyStripLast header = b := by simpa [dropLastChar] using hb
      exact hh1
  · have hstrip : pyStripLast (fieldLine kv) = innerAssign kv.1 kv.2 :=
      pyStripLast_comma (innerAssign kv.1 kv.2)
    have hmap : (fs.concat kv).map fieldLine = fs.map fieldLine ++ [fieldLine kv] := by
      simp [List.concat_eq_append]
    rw [hmap,
      show header :: (fs.map fieldLine ++ [fieldLine kv])
        = (header :: fs.map fieldLine) ++ [fieldLine kv] from rfl,
      dropLastChar_concat, hstrip]
    refine ⟨?_, ?_⟩
    · apply noDangling_block
      · intro y hy
        rcases List.mem_append.mp hy with hy1 | hy2
        · rcases List.mem_cons.mp hy1 with rfl | hy3
          · exact hh
          · obtain ⟨kv2, _, rfl⟩ := List.mem_map.mp hy3
            exact fieldLine_ne_rbracket kv2
        · obtain rfl := List.mem_singleton.mp hy2
          exact innerAssign_ne_rbracket kv.1 kv.2
      · intro a ha
        rw [List.getLast?_concat] at ha
        obtain rfl : innerAssign kv.1 kv.2 = a := by simpa using ha
        exact endsWithComma_innerAssign kv.1 kv.2
    · intro b hb
      obtain rfl : header = b := by simpa using hb
      exact hh

/-- Every rendered `NIC` block is clean and opens with its header. -/
theorem nicBlock_ok (ips : List (Option String)) (idx : Nat) (nid : Int) :
    noDangling (nicBlock ips idx nid) = true
    ∧ ∀ b, (nicBlock ips idx nid).head? = some b → b ≠ "]" := by
  have base : noDangling (dropLastChar ["NIC = [", netIdLine nid ++ ","] ++ ["]"]) = true := by
    rw [show (["NIC = [", netIdLine nid ++ ","] : List String)
          = ["NIC = ["] ++ [netIdLine nid ++ ","] from rfl,
      dropLastChar_concat, pyStripLast_comma]
    exact block2_ok "NIC = [" (netIdLine nid)
      (netIdLine_ne_rbracket nid) (endsWithComma_netIdLine nid)
  have base2 : ∀ ip, noDangling
      (dropLastChar ["NIC = [", netIdLine nid ++ ",", ipLine ip ++ ","] ++ ["]"]) = true := by
    intro ip
    rw [show (["NIC = [", netIdLine nid ++ ",", ipLine ip ++ ","] : List String)
          = ["NIC = [", netIdLine nid ++ ","] ++ [ipLine ip ++ ","] from rfl,
      dropLastChar_concat, pyStripLast_comma]
    exact block3_ok "NIC = [" (netIdLine nid ++ ",") (ipLine ip)
      (netIdComma_ne_rbracket nid) (ipLine_ne_rbracket ip) (endsWithComma_ipLine ip)
  have hhead : ∀ (q : String) (rest : List String) (b : String),
      (dropLastChar ("NIC = [" :: q :: rest) ++ ["]"]).head? = some b → b ≠ "]" := by
    intro q rest b hb
    rw [head_dropLastChar_cons2] at hb
    obtain rfl : "NIC = [" = b := Option.some.inj hb
    decide
  simp only [nicBlock]
  cases h : ips.get? idx with
  | none => exact ⟨base, fun b hb => hhead _ _ b hb⟩
  | some o =>
    cases o with
    | none => exact ⟨base, fun b hb => hhead _ _ b hb⟩
    | some ip =>
      by_cases hip : ip == ""
      · simp only [hip, if_true]
        exact ⟨base, fun b hb => hhead _ _ b hb⟩
      · simp only [Bool.not_eq_true] at hip
        simp only [hip, if_false]
        exact ⟨base2 ip, fun b hb => hhead _ _ b hb⟩

/-- C8: for every rendering input, in the line list produced by the
renderer (which `gen_template` joins with newlines into the template
text) no line immediately preceding a block-closing `]` line ends with
the field separator — so every bracketed NIC, GRAPHICS, CONTEXT and DISK
block, including single-field blocks, is free of a dangling trailing
comma. -/
theorem C8_no_dangling_separator (p : GenParams) :
    noDangling (gen_template_lines p) = true := by
  have hS : noDangling
      ["CPU = \"" ++ toString p.cpu ++ "\"",
       "VCPU = \"" ++ toString p.vcpu ++ "\"",
       "MEMORY = \"" ++ toString p.memory ++ "\""] = true := by
    apply noDangling_of_no_rbracket
    intro y hy
    simp only [List.mem_cons, List.not_mem_nil, or_false] at hy
    rcases hy with rfl | rfl | rfl
    · exact ne_rbracket_of_two_le _
        (two_le_length_left _ _ (two_le_length_left _ _ (by decide)))
    · exact ne_rbracket_of_two_le _
        (two_le_length_left _ _ (two_le_length_left _ _ (by decide)))
    · exact ne_rbracket_of_two_le _
        (two_le_length_left _ _ (two_le_length_left _ _ (by decide)))
  have hN := noDangling_flatten
    (p.nics.enum.map (fun ni => nicBlock p.ips ni.1 ni.2))
    (by
      intro c hc
      obtain ⟨ni, _, rfl⟩ := List.mem_map.mp hc
      exact (nicBlock_ok p.ips ni.1 ni.2).1)
    (by
      intro c hc b hb
      obtain ⟨ni, _, rfl⟩ := List.mem_map.mp hc
      exact (nicBlock_ok p.ips ni.1 ni.2).2 b hb)
  have hG : noDangling (if p.graphics.isEmpty then [] else graphicsBlock p.graphics) = true
      ∧ ∀ b, (if p.graphics.isEmpty then [] else graphicsBlock p.graphics).head?
          = some b → b ≠ "]" := by
    split
    · exact ⟨rfl, fun b hb => by cases hb⟩
    · exact strip_block_ok "GRAPHICS = [" p.graphics (by decide) (by decide) (by decide)
  have hC : noDangling (if p.ssh_keys.isEmpty then [] else contextBlock p.ssh_keys) = true
      ∧ ∀ b, (if p.ssh_keys.isEmpty then [] else contextBlock p.ssh_keys).head?
          = some b → b ≠ "]" := by
    split
    · exact ⟨rfl, fun b hb => by cases hb⟩
    · constructor
      · exact block2_ok "CONTEXT = ["
          ("  SSH_PUBLIC_KEY = \"" ++ String.intercalate "\n" p.ssh_keys ++ "\"")
          (ne_rbracket_of_two_le _
            (two_le_length_left _ _ (two_le_length_left _ _ (by decide))))
          (endsWithComma_append_quote
            ("  SSH_PUBLIC_KEY = \"" ++ String.intercalate "\n" p.ssh_keys))
      · intro b hb
        obtain rfl : "CONTEXT = [" = b := by simpa [contextBlock] using hb
        decide
  have hD := noDangling_flatten (p.disks.map diskBlock)
    (by
      intro c hc
      obtain ⟨d, _, rfl⟩ := List.mem_map.mp hc
      exact (strip_block_ok "DISK = [" d (by decide) (by decide) (by decide)).1)
    (by
      intro c hc b hb
      obtain ⟨d, _, rfl⟩ := List.mem_map.mp hc
      exact (strip_block_ok "DISK = [" d (by decide) (by decide) (by decide)).2 b hb)
  rw [gen_template_lines]
  exact noDangling_append _ _
    (noDangling_append _ _
      (noDangling_append _ _
        (noDangling_append _ _ hS hN.1 hN.2)
        hG.1 hG.2)
      hC.1 hC.2)
    hD.1 hD.2

/-- C10 witness: the first allocation of the concrete creation trace
targets datastore 101 with the fixed template for size 10. -/
theorem C10_image_allocation_fixed_witness :
    101 = 101 ∧ ∃ i size, params0.disks[i]? = some size
      ∧ create_image_template (disk_name "web" 0) 10
          = create_image_template (disk_name params0.name i) size :=
  C10_image_allocation_fixed.2 env0 { name := "web", id := -1, state := none }
    params0 (create_image_call (disk_name "web" 0) 10) (by decide)
    (create_image_template (disk_name "web" 0) 10) 101 rfl

end Onevm
